import Mathlib

/-!
Verification of the token-pagination / incremental-sync core of
`tap_sherpaan` (source: `src/tap_sherpaan/streams.py`).

The per-entity stream classes live in `streams.py`; the shared base class
`SherpaStream` (in `client.py`, which provides
`get_records_with_token_pagination`, the `paginate` flag handling and the
default `_sync_children`) is not part of the provided source, so the
Pagination Engine and Incremental State Manager are modelled from the
specification (sections 4.1 and 4.2), clearly marked below.

Modelling conventions:
  * a Python record/dict of string fields is `Record` (association list);
    `Record.get` is `dict.get` (returns `none` when the key is absent);
  * a Python exception is a `PyError` value; a fallible computation
    returns `Except PyError _`;
  * a child `Sync Context` such as `{"purchase_number": pn}` or
    `{"client_code": c}` carries exactly one field in this code base, so a
    context is represented by that field's string value;
  * the class attribute `_unique_order_numbers = set()` of
    `ChangedPurchasesStream` is modelled as an explicit list of seen keys
    threaded through the per-record dispatch: the Python set is mutated in
    place through `self`, so one list per *process* (not per instance) is
    the faithful reading;
  * Python string truthiness: `""` and `None` are falsy.
-/

/-- A raw item record: field name to raw string value, as returned by the
Response Unmarshaller (a Python dict). -/
structure Record where
  entries : List (String × String)
deriving DecidableEq

/-- `dict.get`: the value of the first matching key, `none` when absent. -/
def Record.get (r : Record) (k : String) : Option String :=
  (r.entries.find? (fun p => p.1 == k)).map (fun p => p.2)

/-- A Python exception raised by the code under study. -/
inductive PyError where
  /-- `KeyError` from subscripting a dict with a missing key. -/
  | keyError (key : String)
  /-- `TypeError` from subscripting `None`. -/
  | typeError
deriving DecidableEq

/-- `obj[key]` on an optional dict: `None[key]` raises `TypeError`,
a missing key raises `KeyError`, otherwise the value is returned. -/
def pySubscript (obj : Option Record) (key : String) : Except PyError String :=
  match obj with
  | none => Except.error PyError.typeError
  | some r =>
    match r.get key with
    | none => Except.error (PyError.keyError key)
    | some v => Except.ok v

/-- Python truthiness of `dict.get`'s result: `None` and `""` are falsy. -/
def truthy : Option String → Bool
  | none => false
  | some s => !(s == "")

/-- `ChangedPurchasesStream.get_child_context` (streams.py:407-418).
State is the class-level set `_unique_order_numbers`, modelled as the list
of keys already added.  Returns the derived context (the
`purchase_number` of `{"purchase_number": pn}`, or `none`) together with
the set after the call. -/
def ChangedPurchasesStream.get_child_context (uniq : List String) (record : Record) :
    Option String × List String :=
  match record.get "OrderNumber" with
  | none => (none, uniq)
  | some pn =>
    if pn = "" then (none, uniq)
    else if pn ∈ uniq then (none, uniq)
    else (some pn, pn :: uniq)

/-- The guard of `ChangedPurchasesStream.get_child_context`: the derivable
child key of a parent record, `none` when `OrderNumber` is absent or
empty. -/
def derivableKey (r : Record) : Option String :=
  match r.get "OrderNumber" with
  | none => none
  | some s => if s = "" then none else some s

/-- The hosting framework's per-record dispatch loop over a parent page
stream: for each record in order, call
`ChangedPurchasesStream.get_child_context` (threading the class-level
set) and collect the non-`none` contexts, which are the child fetches
dispatched, in order. -/
def ChangedPurchasesStream.dispatchContexts (uniq : List String) :
    List Record → List String × List String
  | [] => ([], uniq)
  | r :: rs =>
    let step := ChangedPurchasesStream.get_child_context uniq r
    let rest := ChangedPurchasesStream.dispatchContexts step.2 rs
    (step.1.toList ++ rest.1, rest.2)

/-- `ChangedSuppliersStream.get_child_context` (streams.py:171-175):
`return {"client_code": record["ClientCode"]}` — unconditional, no
deduplication, no empty-key check; the subscript raises `KeyError` when
the field is absent.  The context `{"client_code": c}` is represented by
`c`. -/
def ChangedSuppliersStream.get_child_context (record : Record) : Except PyError String :=
  match record.get "ClientCode" with
  | none => Except.error (PyError.keyError "ClientCode")
  | some v => Except.ok v

/-- The framework's per-record dispatch loop for `ChangedSuppliersStream`,
which keeps no dedup state: one context per parent record. -/
def ChangedSuppliersStream.dispatchContexts (records : List Record) :
    Except PyError (List String) :=
  records.mapM ChangedSuppliersStream.get_child_context

/-- First-seen deduplication of a key sequence, given keys already seen:
keeps the first occurrence of each key not yet seen, in order. -/
def firstSeen (seen : List String) : List String → List String
  | [] => []
  | k :: ks => if k ∈ seen then firstSeen seen ks else k :: firstSeen (k :: seen) ks

/-- The configuration mapping consumed by the streams.  The keys the code
reads are named fields; `extra` stands for any further entries of the
config dict, which the envelope builders never read. -/
structure Config where
  security_code : String
  chunk_size : Option Nat
  warehouse_group_code : Option String
  extra : List (String × String)
deriving DecidableEq

/-- One character of Python's `html.escape` (with its default
`quote=True`): `&`, `<`, `>`, `"` and the apostrophe (code point 39) are
replaced by entities, every other character is kept.  The sequential
`str.replace` chain of the CPython implementation acts independently on
each input character, so the per-character map is exact. -/
def htmlEscapeChar (c : Char) : String :=
  if c = '&' then "&amp;"
  else if c = '<' then "&lt;"
  else if c = '>' then "&gt;"
  else if c = '"' then "&quot;"
  else if c.toNat = 39 then "&#x27;"
  else String.singleton c

/-- Python's `html.escape` with `quote=True` (the default used at
streams.py:230). -/
def htmlEscape (s : String) : String :=
  String.join (s.toList.map htmlEscapeChar)

/-- `ChangedItemsInformationStream._get_soap_envelope` (streams.py:53-73):
the f-string with `self.config["security_code"]`, `token` and `count`
interpolated. -/
def ChangedItemsInformationStream._get_soap_envelope
    (cfg : Config) (token : Int) (count : Nat) : String :=
  "<?xml version=\"1.0\" encoding=\"utf-8\"?>\n<soap12:Envelope xmlns:soap12=\"http://www.w3.org/2003/05/soap-envelope\">\n  <soap12:Body>\n    <tns:ChangedItemsInformation xmlns:tns=\"http://sherpa.sherpaan.nl/\">\n      <tns:securityCode>"
    ++ cfg.security_code ++
    "</tns:securityCode>\n      <tns:token>"
    ++ toString token ++
    "</tns:token>\n      <tns:count>"
    ++ toString count ++
    "</tns:count>\n      <tns:itemInformationTypes>\n        <tns:ItemInformationType>General</tns:ItemInformationType>\n        <tns:ItemInformationType>EanCode</tns:ItemInformationType>\n        <tns:ItemInformationType>CustomFields</tns:ItemInformationType>\n        <tns:ItemInformationType>Warehouses</tns:ItemInformationType>\n        <tns:ItemInformationType>ItemSuppliers</tns:ItemInformationType>\n        <tns:ItemInformationType>ItemAssemblies</tns:ItemInformationType>\n        <tns:ItemInformationType>ItemPurchases</tns:ItemInformationType>\n      </tns:itemInformationTypes>\n    </tns:ChangedItemsInformation>\n  </soap12:Body>\n</soap12:Envelope>"

/-- The instance state read by `SupplierInfoStream._get_soap_envelope`:
`self.config` and `self._current_client_code` (the attribute that
`get_records` assigns from the parent context). -/
structure SupplierInfoState where
  config : Config
  _current_client_code : String
deriving DecidableEq

/-- The literal text of the `SupplierInfo` f-string before the
`supplierCode` interpolation (with the `securityCode` interpolation
filled in). -/
def supplierEnvelopePre (cfg : Config) : String :=
  "<?xml version=\"1.0\" encoding=\"utf-8\"?>\n<soap12:Envelope xmlns:soap12=\"http://www.w3.org/2003/05/soap-envelope\">\n  <soap12:Body>\n    <tns:SupplierInfo xmlns:tns=\"http://sherpa.sherpaan.nl/\">\n      <tns:securityCode>"
    ++ cfg.security_code ++
    "</tns:securityCode>\n      <tns:supplierCode>"

/-- The literal text of the `SupplierInfo` f-string after the
`supplierCode` interpolation. -/
def supplierEnvelopePost : String :=
  "</tns:supplierCode>\n    </tns:SupplierInfo>\n  </soap12:Body>\n</soap12:Envelope>"

/-- `SupplierInfoStream._get_soap_envelope` (streams.py:228-239):
`encoded_supplier_code = html.escape(self._current_client_code)` is
interpolated between the two literal template pieces; the `token` and
`count` parameters are accepted (with defaults) but not interpolated. -/
def SupplierInfoStream._get_soap_envelope
    (s : SupplierInfoState) (_token : Int) (_count : Nat) : String :=
  supplierEnvelopePre s.config ++ htmlEscape s._current_client_code ++ supplierEnvelopePost

/-- The instance state read by `PurchaseInfoStream._get_soap_envelope`:
`self.config` and `self._current_purchase_number`. -/
structure PurchaseInfoState where
  config : Config
  _current_purchase_number : String
deriving DecidableEq

/-- The literal text of the `PurchaseInfo` f-string before the
`purchaseNumber` interpolation (with the `securityCode` interpolation
filled in). -/
def purchaseEnvelopePre (cfg : Config) : String :=
  "<?xml version=\"1.0\" encoding=\"utf-8\"?>\n<soap12:Envelope xmlns:soap12=\"http://www.w3.org/2003/05/soap-envelope\">\n  <soap12:Body>\n    <tns:PurchaseInfo xmlns:tns=\"http://sherpa.sherpaan.nl/\">\n      <tns:securityCode>"
    ++ cfg.security_code ++
    "</tns:securityCode>\n      <tns:purchaseNumber>"

/-- The literal text of the `PurchaseInfo` f-string after the
`purchaseNumber` interpolation. -/
def purchaseEnvelopePost : String :=
  "</tns:purchaseNumber>\n    </tns:PurchaseInfo>\n  </soap12:Body>\n</soap12:Envelope>"

/-- `PurchaseInfoStream._get_soap_envelope` (streams.py:443-453):
`self._current_purchase_number` is interpolated verbatim — no
`html.escape` call, unlike `SupplierInfoStream`. -/
def PurchaseInfoStream._get_soap_envelope
    (s : PurchaseInfoState) (_token : Int) (_count : Nat) : String :=
  purchaseEnvelopePre s.config ++ s._current_purchase_number ++ purchaseEnvelopePost

/-- `SupplierInfoStream.paginate` (streams.py:184). -/
def SupplierInfoStream.paginate : Bool := false

/-- `PurchaseInfoStream.paginate` (streams.py:432). -/
def PurchaseInfoStream.paginate : Bool := false

/-- `ChangedPurchasesStream.get_records` (streams.py:393-405): the
records produced by the pagination engine are filtered, yielding only
those whose `OrderNumber` is truthy (`record.get("OrderNumber")` neither
`None` nor `""`).  `paginated` is the sequence the engine yields for this
invocation. -/
def ChangedPurchasesStream.get_records (paginated : List Record) : List Record :=
  paginated.filter (fun record => truthy (record.get "OrderNumber"))

/-- An invocation of a child stream's sync (the child Pagination Engine
run that `super()._sync_children` performs), identified by the context it
was handed. -/
inductive ChildInvocation where
  | engineRun (child_context : String)
deriving DecidableEq

/-- `ChangedPurchasesStream._sync_children` (streams.py:420-423): the
inherited sync (`base`, from the absent `client.py`/SDK base class, which
may itself fail or produce child engine invocations) runs only when
`child_context is not None`; for `None` the method returns at once. -/
def ChangedPurchasesStream._sync_children
    (base : String → Except PyError (List ChildInvocation)) :
    Option String → Except PyError (List ChildInvocation)
  | none => Except.ok []
  | some ctx => base ctx

/-- `SupplierInfoStream.get_records` (streams.py:241-251): the first
statement is `self._current_client_code = context["client_code"]`
(`context` defaults to `None`); only then is the envelope built and the
single request issued (`paginate = False`, one cycle — Transport and
Unmarshaller are abstracted by `transport`).  Result: the envelopes sent,
and the records or the exception. -/
def SupplierInfoStream.get_records (cfg : Config)
    (transport : String → List Record) (context : Option Record) :
    List String × Except PyError (List Record) :=
  match pySubscript context "client_code" with
  | Except.error e => ([], Except.error e)
  | Except.ok code =>
    let page_size := cfg.chunk_size.getD 200
    let env := SupplierInfoStream._get_soap_envelope ⟨cfg, code⟩ 0 page_size
    ([env], Except.ok (transport env))

/-- `PurchaseInfoStream.get_records` (streams.py:455-465): the first
statement is `self._current_purchase_number = context["purchase_number"]`;
only then is the envelope built and the single request issued. -/
def PurchaseInfoStream.get_records (cfg : Config)
    (transport : String → List Record) (context : Option Record) :
    List String × Except PyError (List Record) :=
  match pySubscript context "purchase_number" with
  | Except.error e => ([], Except.error e)
  | Except.ok num =>
    let page_size := cfg.chunk_size.getD 200
    let env := PurchaseInfoStream._get_soap_envelope ⟨cfg, num⟩ 0 page_size
    ([env], Except.ok (transport env))

/-- A failure of the remote call: a Transport failure or a malformed
response (spec section 7's taxonomy). -/
inductive SyncError where
  | transport
  | malformed
deriving DecidableEq

/-- One page as the Response Unmarshaller returns it: the item list, the
page's terminal token and the service's has-more signal (spec section
4.1, step 2). -/
structure Page where
  items : List Record
  next_token : Int
  has_more : Bool
deriving DecidableEq

/-- Modelled from the spec: the Pagination Engine of section 4.1
(`get_records_with_token_pagination` of `client.py`, which is not under
`src/`).  `service` is Envelope Builder → Transport → Unmarshaller for
one token; `fuel` bounds the page walk (the theorems quantify over any
sufficient fuel and never rely on the exhaustion branch).  Returns the
tokens of the requests issued in order (one envelope built and one
transport call each), the records yielded, and either the terminal token
to commit or the error that aborted the run. -/
def fetchAll (service : Int → Except SyncError Page) (page_size : Nat) :
    Nat → Int → List Int × List Record × Except SyncError Int
  | 0, token => ([], [], Except.ok token)
  | fuel + 1, token =>
    match service token with
    | Except.error e => ([token], [], Except.error e)
    | Except.ok p =>
      if p.items.length < page_size ∨ p.has_more = false ∨ p.next_token = token then
        ([token], p.items, Except.ok p.next_token)
      else
        let rest := fetchAll service page_size fuel p.next_token
        (token :: rest.1, p.items ++ rest.2.1, rest.2.2)

/-- Modelled from the spec: the Incremental State Manager's commit policy
of section 4.2 (`client.py` is not under `src/`): the new bookmark is the
terminal token when the run exhausted its pages, and the pre-run bookmark
when the run aborted with an error. -/
def commitAfterRun (bookmark : Int) (result : Except SyncError Int) : Int :=
  match result with
  | Except.ok t => t
  | Except.error _ => bookmark

/-- Modelled from the spec: one stream sync (section 4.1 with its
`paginate` edge case; `client.py` is not under `src/`).  When `paginate`
is true the engine walks the token chain from the bookmark and the
bookmark is committed by `commitAfterRun`; when `paginate` is false
exactly one request/response cycle runs, its result is the sole page and
the bookmark is left as it was.  Returns (request tokens, records, final
bookmark). -/
def streamSync (paginate : Bool) (service : Int → Except SyncError Page)
    (page_size fuel : Nat) (bookmark : Int) : List Int × List Record × Int :=
  if paginate then
    let run := fetchAll service page_size fuel bookmark
    (run.1, run.2.1, commitAfterRun bookmark run.2.2)
  else
    match service bookmark with
    | Except.ok p => ([bookmark], p.items, bookmark)
    | Except.error _ => ([bookmark], [], bookmark)

theorem get_child_context_fst (uniq : List String) (r : Record) :
    (ChangedPurchasesStream.get_child_context uniq r).1 =
      match derivableKey r with
      | none => none
      | some pn => if pn ∈ uniq then none else some pn := by
  unfold ChangedPurchasesStream.get_child_context derivableKey
  cases r.get "OrderNumber" with
  | none => rfl
  | some pn =>
    by_cases h : pn = "" <;> by_cases hm : pn ∈ uniq <;> simp [h, hm]

theorem get_child_context_snd (uniq : List String) (r : Record) :
    (ChangedPurchasesStream.get_child_context uniq r).2 =
      match derivableKey r with
      | none => uniq
      | some pn => if pn ∈ uniq then uniq else pn :: uniq := by
  unfold ChangedPurchasesStream.get_child_context derivableKey
  cases r.get "OrderNumber" with
  | none => rfl
  | some pn =>
    by_cases h : pn = "" <;> by_cases hm : pn ∈ uniq <;> simp [h, hm]

theorem dispatchContexts_fst_cons (uniq : List String) (r : Record) (rs : List Record) :
    (ChangedPurchasesStream.dispatchContexts uniq (r :: rs)).1 =
      (ChangedPurchasesStream.get_child_context uniq r).1.toList ++
        (ChangedPurchasesStream.dispatchContexts
          (ChangedPurchasesStream.get_child_context uniq r).2 rs).1 := rfl

theorem dispatchContexts_snd_cons (uniq : List String) (r : Record) (rs : List Record) :
    (ChangedPurchasesStream.dispatchContexts uniq (r :: rs)).2 =
      (ChangedPurchasesStream.dispatchContexts
        (ChangedPurchasesStream.get_child_context uniq r).2 rs).2 := rfl

theorem dispatchContexts_eq_firstSeen (rs : List Record) :
    ∀ uniq : List String,
      (ChangedPurchasesStream.dispatchContexts uniq rs).1 =
        firstSeen uniq (rs.filterMap derivableKey) := by
  induction rs with
  | nil => intro uniq; rfl
  | cons r rs ih =>
    intro uniq
    have h1 := get_child_context_fst uniq r
    have h2 := get_child_context_snd uniq r
    rw [dispatchContexts_fst_cons, List.filterMap_cons]
    cases hk : derivableKey r with
    | none =>
      rw [hk] at h1 h2
      rw [h1, h2]
      simp [ih]
    | some pn =>
      rw [hk] at h1 h2
      dsimp only at h1 h2
      by_cases hmem : pn ∈ uniq
      · rw [if_pos hmem] at h1 h2
        rw [h1, h2]
        simp [firstSeen, hmem, ih]
      · rw [if_neg hmem] at h1 h2
        rw [h1, h2]
        simp [firstSeen, hmem, ih]

theorem mem_firstSeen_not_seen (k : String) :
    ∀ (seen ks : List String), k ∈ firstSeen seen ks → k ∉ seen := by
  intro seen ks
  induction ks generalizing seen with
  | nil => intro h; cases h
  | cons a ks ih =>
    intro h
    unfold firstSeen at h
    by_cases ha : a ∈ seen
    · simp only [ha, if_true] at h
      exact ih seen h
    · simp only [ha, if_false, List.mem_cons] at h
      cases h with
      | inl he => intro hk; exact ha (he ▸ hk)
      | inr ht =>
        intro hk
        exact (ih (a :: seen) ht) (List.mem_cons_of_mem a hk)

theorem firstSeen_nodup : ∀ (seen ks : List String), (firstSeen seen ks).Nodup := by
  intro seen ks
  induction ks generalizing seen with
  | nil => exact List.nodup_nil
  | cons a ks ih =>
    unfold firstSeen
    by_cases ha : a ∈ seen
    · simp only [ha, if_true]; exact ih seen
    · simp only [ha, if_false]
      refine List.nodup_cons.mpr ⟨?_, ih (a :: seen)⟩
      intro hmem
      exact (mem_firstSeen_not_seen a (a :: seen) ks hmem) (List.mem_cons_self a seen)

theorem mem_dispatchContexts_snd (rs : List Record) :
    ∀ (uniq : List String) (k : String), k ∈ uniq →
      k ∈ (ChangedPurchasesStream.dispatchContexts uniq rs).2 := by
  induction rs with
  | nil => intro uniq k hk; exact hk
  | cons r rs ih =>
    intro uniq k hk
    rw [dispatchContexts_snd_cons]
    refine ih _ k ?_
    rw [get_child_context_snd]
    cases hd : derivableKey r with
    | none => exact hk
    | some pn =>
      by_cases hm : pn ∈ uniq
      · simpa [hm] using hk
      · simp only [hm, if_false]
        exact List.mem_cons_of_mem pn hk

/-- C1 (amended, for `ChangedPurchasesStream` only): the child contexts
dispatched for a parent record sequence are exactly the first-seen
deduplication of the records' derivable keys — each distinct non-empty
`OrderNumber` yields exactly one context, in first-seen order, so no
context is repeated; a record whose derivable key is empty or absent
contributes no context and leaves the dedup set unchanged; and records
with keys `K1, K1, K2` dispatch exactly the two contexts `K1` then `K2`.
(The claim's quantification over every parent stream with a child stream
fails: see the counterexample for `ChangedSuppliersStream`.) -/
theorem c1_changed_purchases_unique_child_contexts :
    (∀ (uniq : List String) (rs : List Record),
        (ChangedPurchasesStream.dispatchContexts uniq rs).1 =
          firstSeen uniq (rs.filterMap derivableKey))
    ∧ (∀ rs : List Record, ((ChangedPurchasesStream.dispatchContexts [] rs).1).Nodup)
    ∧ (∀ (uniq : List String) (r : Record), derivableKey r = none →
        (ChangedPurchasesStream.get_child_context uniq r).1 = none ∧
        (ChangedPurchasesStream.get_child_context uniq r).2 = uniq)
    ∧ (ChangedPurchasesStream.dispatchContexts []
        [⟨[("OrderNumber", "K1")]⟩, ⟨[("OrderNumber", "K1")]⟩,
          ⟨[("OrderNumber", "K2")]⟩]).1 = ["K1", "K2"] := by
  refine ⟨fun uniq rs => dispatchContexts_eq_firstSeen rs uniq, ?_, ?_, ?_⟩
  · intro rs
    rw [dispatchContexts_eq_firstSeen]
    exact firstSeen_nodup [] (rs.filterMap derivableKey)
  · intro uniq r h
    constructor
    · rw [get_child_context_fst, h]
    · rw [get_child_context_snd, h]
  · rfl

theorem c1_changed_purchases_unique_child_contexts_witness :
    derivableKey ⟨[("PurchaseCode", "P1")]⟩ = none ∧
    (ChangedPurchasesStream.get_child_context [] ⟨[("PurchaseCode", "P1")]⟩).1 = none :=
  ⟨by decide,
    (c1_changed_purchases_unique_child_contexts.2.2.1 [] ⟨[("PurchaseCode", "P1")]⟩
      (by decide)).1⟩

/-- C1 is false as stated for `ChangedSuppliersStream`, the other parent
stream with a child stream: two parent records sharing the derived child
key `K1` produce two child contexts (the claim requires exactly one), and
a parent record whose `ClientCode` is empty produces one context (the
claim requires zero). -/
theorem c1_suppliers_no_dedup_counterexample :
    ChangedSuppliersStream.dispatchContexts
        [⟨[("ClientCode", "K1")]⟩, ⟨[("ClientCode", "K1")]⟩] = Except.ok ["K1", "K1"]
    ∧ ChangedSuppliersStream.dispatchContexts [⟨[("ClientCode", "")]⟩]
        = Except.ok [""] := by
  constructor <;> rfl

/-- C2 (amended): the dedup set `_unique_order_numbers` is a class
attribute of `ChangedPurchasesStream`, shared by every instance of the
class in one process and kept across sync invocations within that
process (it is not persisted across processes); it grows monotonically —
a key once present is present after any further dispatching — and a key
already in the set never yields another child context, whichever
instance or run added it. -/
theorem c2_dedup_set_class_level_monotone :
    (∀ (uniq : List String) (rs : List Record) (k : String),
        k ∈ uniq → k ∈ (ChangedPurchasesStream.dispatchContexts uniq rs).2)
    ∧ (∀ (uniq : List String) (r : Record) (k : String),
        k ∈ uniq → derivableKey r = some k →
        (ChangedPurchasesStream.get_child_context uniq r).1 = none) := by
  constructor
  · intro uniq rs k hk
    exact mem_dispatchContexts_snd rs uniq k hk
  · intro uniq r k hk hd
    rw [get_child_context_fst, hd]
    simp [hk]

theorem c2_dedup_set_class_level_monotone_witness :
    "K1" ∈ (ChangedPurchasesStream.dispatchContexts ["K1"]
      [⟨[("OrderNumber", "K2")]⟩]).2 :=
  c2_dedup_set_class_level_monotone.1 ["K1"] [⟨[("OrderNumber", "K2")]⟩] "K1"
    (by decide)

/-- C2 is false as stated: dedup state is shared across stream instances
and sync invocations in one process.  A first run (one instance)
dispatches `K1`; a second run over the same key — a fresh instance of
`ChangedPurchasesStream` in the same process, starting from the
class-level set the first run left behind — dispatches nothing, although
the claim requires the fresh instance's run to dispatch `K1` once. -/
theorem c2_shared_across_instances_counterexample :
    (ChangedPurchasesStream.dispatchContexts [] [⟨[("OrderNumber", "K1")]⟩]).1 = ["K1"]
    ∧ (ChangedPurchasesStream.dispatchContexts
        (ChangedPurchasesStream.dispatchContexts [] [⟨[("OrderNumber", "K1")]⟩]).2
        [⟨[("OrderNumber", "K1")]⟩]).1 = [] := by
  constructor <;> rfl

/-- C3: if the page fetched at token `t` comes back with
`next_token = t` (no progress), the engine processes that page — yields
its items — and stops: the request trace is exactly `[t]`, no further
request is issued whatever fuel remains, and the run ends in the success
result with that page's token as the terminal bookmark, not in an
error. -/
theorem c3_no_progress_terminates
    (service : Int → Except SyncError Page) (page_size fuel : Nat) (t : Int) (p : Page)
    (h1 : service t = Except.ok p) (h2 : p.next_token = t) :
    fetchAll service page_size (fuel + 1) t = ([t], p.items, Except.ok t) := by
  unfold fetchAll
  rw [h1]
  dsimp only
  rw [if_pos (Or.inr (Or.inr h2)), h2]

theorem c3_no_progress_terminates_witness :
    fetchAll (fun t => if t = 7 then Except.ok ⟨[⟨[("ItemCode", "A")]⟩], 7, true⟩
        else Except.error SyncError.transport) 200 8 7
      = ([7], [⟨[("ItemCode", "A")]⟩], Except.ok 7) :=
  c3_no_progress_terminates _ 200 7 7 ⟨[⟨[("ItemCode", "A")]⟩], 7, true⟩ rfl rfl

/-- C6: when the first page succeeds with a full page and a fresh token
but the second page request fails with a transport error, the run has
already yielded the first page's items, the request trace is exactly the
two attempted pages, the committed bookmark is the pre-run value, and the
re-run from that unchanged bookmark issues its first request at the same
start token (page one is re-fetched: at-least-once delivery). -/
theorem c6_midrun_failure_preserves_bookmark
    (service : Int → Except SyncError Page) (page_size fuel : Nat) (t0 : Int)
    (p1 : Page) (e : SyncError)
    (h1 : service t0 = Except.ok p1)
    (h2 : ¬ p1.items.length < page_size) (h3 : p1.has_more = true)
    (h4 : p1.next_token ≠ t0)
    (h5 : service p1.next_token = Except.error e) :
    fetchAll service page_size (fuel + 2) t0
        = ([t0, p1.next_token], p1.items, Except.error e)
    ∧ commitAfterRun t0 (fetchAll service page_size (fuel + 2) t0).2.2 = t0
    ∧ (fetchAll service page_size (fuel + 2)
        (commitAfterRun t0 (fetchAll service page_size (fuel + 2) t0).2.2)).1.head?
        = some t0 := by
  have hcond : ¬ (p1.items.length < page_size ∨ p1.has_more = false
      ∨ p1.next_token = t0) := by
    rintro (hlt | hm | heq)
    · exact h2 hlt
    · rw [h3] at hm; exact Bool.noConfusion hm
    · exact h4 heq
  have hinner : fetchAll service page_size (fuel + 1) p1.next_token
      = ([p1.next_token], [], Except.error e) := by
    unfold fetchAll
    rw [h5]
  have hmain : fetchAll service page_size (fuel + 2) t0
      = ([t0, p1.next_token], p1.items, Except.error e) := by
    show fetchAll service page_size ((fuel + 1) + 1) t0 = _
    unfold fetchAll
    rw [h1]
    dsimp only
    rw [if_neg hcond]
    simp [hinner]
  have hb : commitAfterRun t0 (fetchAll service page_size (fuel + 2) t0).2.2 = t0 := by
    rw [hmain]
    rfl
  refine ⟨hmain, hb, ?_⟩
  rw [hb, hmain]
  rfl

theorem c6_midrun_failure_preserves_bookmark_witness :
    fetchAll (fun t => if t = 0 then Except.ok ⟨[⟨[("PurchaseCode", "A")]⟩], 5, true⟩
        else Except.error SyncError.transport) 1 2 0
      = ([0, 5], [⟨[("PurchaseCode", "A")]⟩], Except.error SyncError.transport) :=
  (c6_midrun_failure_preserves_bookmark _ 1 0 0
    ⟨[⟨[("PurchaseCode", "A")]⟩], 5, true⟩ SyncError.transport
    rfl (by decide) rfl (by decide) rfl).1

/-- C7: `SupplierInfoStream` and `PurchaseInfoStream` declare
`paginate = False`, and a sync of a stream whose `paginate` flag is false
issues exactly one request (one envelope built, one transport call, the
trace is `[bookmark]`), leaves the bookmark unchanged, and uses the
response's items as the sole page of records. -/
theorem c7_nonpaginated_single_cycle (service : Int → Except SyncError Page)
    (page_size fuel : Nat) (bookmark : Int) :
    SupplierInfoStream.paginate = false
    ∧ PurchaseInfoStream.paginate = false
    ∧ (streamSync SupplierInfoStream.paginate service page_size fuel bookmark).1
        = [bookmark]
    ∧ (streamSync SupplierInfoStream.paginate service page_size fuel bookmark).2.2
        = bookmark
    ∧ (streamSync PurchaseInfoStream.paginate service page_size fuel bookmark).1
        = [bookmark]
    ∧ (streamSync PurchaseInfoStream.paginate service page_size fuel bookmark).2.2
        = bookmark
    ∧ (∀ p : Page, service bookmark = Except.ok p →
        (streamSync SupplierInfoStream.paginate service page_size fuel bookmark).2.1
            = p.items
        ∧ (streamSync PurchaseInfoStream.paginate service page_size fuel bookmark).2.1
            = p.items) := by
  refine ⟨rfl, rfl, ?_, ?_, ?_, ?_, ?_⟩
  · cases h : service bookmark <;>
      simp [streamSync, SupplierInfoStream.paginate, h]
  · cases h : service bookmark <;>
      simp [streamSync, SupplierInfoStream.paginate, h]
  · cases h : service bookmark <;>
      simp [streamSync, PurchaseInfoStream.paginate, h]
  · cases h : service bookmark <;>
      simp [streamSync, PurchaseInfoStream.paginate, h]
  · intro p hp
    constructor <;>
      simp [streamSync, SupplierInfoStream.paginate, PurchaseInfoStream.paginate, hp]

theorem c7_nonpaginated_single_cycle_witness :
    (streamSync SupplierInfoStream.paginate
        (fun _ => Except.ok ⟨[⟨[("SupplierCode", "S")]⟩], 9, true⟩) 200 5 3).2.1
      = [⟨[("SupplierCode", "S")]⟩] :=
  ((c7_nonpaginated_single_cycle _ 200 5 3).2.2.2.2.2.2
    ⟨[⟨[("SupplierCode", "S")]⟩], 9, true⟩ rfl).1

/-- C4: a record the pagination engine produced for
`ChangedPurchasesStream` is emitted by `get_records` exactly when its
`OrderNumber` field is present and non-empty; records lacking it are
dropped from the emitted sequence (the sequence that feeds the
dedup/child-dispatch stage). -/
theorem c4_order_number_filter (paginated : List Record) (r : Record)
    (h : r ∈ paginated) :
    r ∈ ChangedPurchasesStream.get_records paginated ↔
      ∃ s, r.get "OrderNumber" = some s ∧ s ≠ "" := by
  unfold ChangedPurchasesStream.get_records
  rw [List.mem_filter]
  constructor
  · rintro ⟨-, ht⟩
    cases hg : r.get "OrderNumber" with
    | none => rw [hg] at ht; simp [truthy] at ht
    | some s =>
      rw [hg] at ht
      refine ⟨s, rfl, ?_⟩
      simpa [truthy] using ht
  · rintro ⟨s, hs, hne⟩
    exact ⟨h, by simp [truthy, hs, hne]⟩

theorem c4_order_number_filter_witness :
    ((⟨[("OrderNumber", "A")]⟩ : Record) ∈
        ChangedPurchasesStream.get_records [⟨[("OrderNumber", "A")]⟩] ↔
      ∃ s, (⟨[("OrderNumber", "A")]⟩ : Record).get "OrderNumber" = some s ∧ s ≠ "") :=
  c4_order_number_filter [⟨[("OrderNumber", "A")]⟩] ⟨[("OrderNumber", "A")]⟩
    (by simp)

/-- C5: for a parent record whose derived child context is `None` —
`OrderNumber` absent, empty, or already in the dedup set —
`_sync_children` performs no child sync at all: the inherited sync is
never invoked (its effects, even an exception it would raise, do not
occur) and the result is the silent, error-free empty outcome. -/
theorem c5_none_context_skips_child_sync
    (base : String → Except PyError (List ChildInvocation))
    (uniq : List String) (r : Record)
    (h : r.get "OrderNumber" = none ∨ r.get "OrderNumber" = some ""
        ∨ ∃ s, r.get "OrderNumber" = some s ∧ s ∈ uniq) :
    (ChangedPurchasesStream.get_child_context uniq r).1 = none
    ∧ ChangedPurchasesStream._sync_children base
        (ChangedPurchasesStream.get_child_context uniq r).1 = Except.ok [] := by
  have hnone : (ChangedPurchasesStream.get_child_context uniq r).1 = none := by
    rw [get_child_context_fst]
    rcases h with h | h | ⟨s, hs, hmem⟩
    · simp [derivableKey, h]
    · simp [derivableKey, h]
    · unfold derivableKey
      rw [hs]
      by_cases he : s = ""
      · simp [he]
      · simp [he, hmem]
  exact ⟨hnone, by rw [hnone]; rfl⟩

theorem c5_none_context_skips_child_sync_witness :
    (ChangedPurchasesStream.get_child_context ["K1"] ⟨[("OrderNumber", "K1")]⟩).1 = none
    ∧ ChangedPurchasesStream._sync_children
        (fun ctx => Except.error (PyError.keyError ctx))
        (ChangedPurchasesStream.get_child_context ["K1"] ⟨[("OrderNumber", "K1")]⟩).1
      = Except.ok [] :=
  c5_none_context_skips_child_sync _ ["K1"] ⟨[("OrderNumber", "K1")]⟩
    (Or.inr (Or.inr ⟨"K1", by decide, by decide⟩))

/-- C8: every envelope builder is a function of the token, the count, the
configuration entries it names (`security_code`) and its entity-specific
parameter (the parent-supplied code held in the instance state): two
calls agreeing on those inputs return the same request string even when
every other configuration entry (`chunk_size`, `warehouse_group_code`,
any extra key) differs, and no state is read or mutated beyond them. -/
theorem c8_envelope_builders_deterministic
    (c1 c2 : Config) (token : Int) (count : Nat) (code num : String)
    (h : c1.security_code = c2.security_code) :
    ChangedItemsInformationStream._get_soap_envelope c1 token count
        = ChangedItemsInformationStream._get_soap_envelope c2 token count
    ∧ SupplierInfoStream._get_soap_envelope ⟨c1, code⟩ token count
        = SupplierInfoStream._get_soap_envelope ⟨c2, code⟩ token count
    ∧ PurchaseInfoStream._get_soap_envelope ⟨c1, num⟩ token count
        = PurchaseInfoStream._get_soap_envelope ⟨c2, num⟩ token count := by
  refine ⟨?_, ?_, ?_⟩ <;>
    simp [ChangedItemsInformationStream._get_soap_envelope,
      SupplierInfoStream._get_soap_envelope, PurchaseInfoStream._get_soap_envelope,
      supplierEnvelopePre, purchaseEnvelopePre, h]

theorem c8_envelope_builders_deterministic_witness :
    ChangedItemsInformationStream._get_soap_envelope ⟨"sec", none, none, []⟩ 1 2
      = ChangedItemsInformationStream._get_soap_envelope
          ⟨"sec", some 50, some "W", [("other", "entry")]⟩ 1 2 :=
  (c8_envelope_builders_deterministic ⟨"sec", none, none, []⟩
    ⟨"sec", some 50, some "W", [("other", "entry")]⟩ 1 2 "x" "y" rfl).1

/-- C9: the two child streams escape the parent-supplied value
asymmetrically: the `SupplierInfo` envelope embeds
`html.escape(client_code)` between its literal template pieces, the
`PurchaseInfo` envelope embeds `purchase_number` verbatim, and
`html.escape` really rewrites the XML-significant characters (for
instance `<K&>` becomes `&lt;K&amp;&gt;`). -/
theorem c9_escaping_asymmetry (s : SupplierInfoState) (p : PurchaseInfoState)
    (token : Int) (count : Nat) :
    SupplierInfoStream._get_soap_envelope s token count
        = supplierEnvelopePre s.config ++ htmlEscape s._current_client_code
            ++ supplierEnvelopePost
    ∧ PurchaseInfoStream._get_soap_envelope p token count
        = purchaseEnvelopePre p.config ++ p._current_purchase_number
            ++ purchaseEnvelopePost
    ∧ htmlEscape "<K&>" = "&lt;K&amp;&gt;" := by
  exact ⟨rfl, rfl, by decide⟩

/-- C10: invoking `get_records` of `SupplierInfoStream` or
`PurchaseInfoStream` with `context = None` (the declared default) or with
a context mapping lacking the required key (`client_code` /
`purchase_number`) fails with an exception (`TypeError` / `KeyError`)
raised by the first statement, before any envelope is built, any request
issued, or any record yielded. -/
theorem c10_missing_context_fails_before_request
    (cfg : Config) (tr1 tr2 : String → List Record) (c1 c2 : Option Record)
    (h1 : c1 = none ∨ ∃ ctx, c1 = some ctx ∧ ctx.get "client_code" = none)
    (h2 : c2 = none ∨ ∃ ctx, c2 = some ctx ∧ ctx.get "purchase_number" = none) :
    (∃ e, SupplierInfoStream.get_records cfg tr1 c1 = ([], Except.error e))
    ∧ (∃ e, PurchaseInfoStream.get_records cfg tr2 c2 = ([], Except.error e)) := by
  constructor
  · rcases h1 with h | ⟨ctx, hc, hg⟩
    · exact ⟨PyError.typeError,
        by simp [SupplierInfoStream.get_records, pySubscript, h]⟩
    · exact ⟨PyError.keyError "client_code",
        by simp [SupplierInfoStream.get_records, pySubscript, hc, hg]⟩
  · rcases h2 with h | ⟨ctx, hc, hg⟩
    · exact ⟨PyError.typeError,
        by simp [PurchaseInfoStream.get_records, pySubscript, h]⟩
    · exact ⟨PyError.keyError "purchase_number",
        by simp [PurchaseInfoStream.get_records, pySubscript, hc, hg]⟩

theorem c10_missing_context_fails_before_request_witness :
    (∃ e, SupplierInfoStream.get_records ⟨"s", none, none, []⟩ (fun _ => []) none
        = ([], Except.error e))
    ∧ (∃ e, PurchaseInfoStream.get_records ⟨"s", none, none, []⟩ (fun _ => [])
        (some ⟨[("other_key", "v")]⟩) = ([], Except.error e)) :=
  c10_missing_context_fails_before_request ⟨"s", none, none, []⟩ _ _ none
    (some ⟨[("other_key", "v")]⟩) (Or.inl rfl)
    (Or.inr ⟨⟨[("other_key", "v")]⟩, rfl, by decide⟩)
